import Mathlib

/-!
# rndocumentpicker.h : the declared bridging interface

The header `build/generated/ios/rndocumentpicker/rndocumentpicker.h` contains
declarations only: one Objective-C protocol, one Objective-C interface and one
C++ class.  The development below embeds those declarations as data (every
selector keyword, parameter type, parameter name, instance variable and
constructor exactly as written in the header) and proves the properties of the
declared surface.
-/

namespace RNDocumentPicker

/-! ## Declaration syntax -/

/-- Type expressions as they are written in the header. -/
inductive TypeExpr where
  | void
  | named (name : String)
  | pointer (pointee : TypeExpr)
  | constRef (referent : TypeExpr)
  deriving DecidableEq

/-- One keyword segment of an Objective-C method declaration,
`label:(type)name`. -/
structure KeywordPart where
  label : String
  type : TypeExpr
  name : String
  deriving DecidableEq

/-- An Objective-C method declaration.  `isInstance` is the leading `-`. -/
structure ObjCMethod where
  isInstance : Bool
  returnType : TypeExpr
  parts : List KeywordPart
  deriving DecidableEq

/-- An `@protocol` declaration. -/
structure ObjCProtocol where
  name : String
  conformsTo : List String
  methods : List ObjCMethod
  deriving DecidableEq

/-- Visibility directive of an instance variable. -/
inductive Visibility where
  | isPrivate
  | isProtected
  | isPublic
  deriving DecidableEq

/-- An instance variable declared between the braces of an `@interface`. -/
structure Ivar where
  visibility : Visibility
  type : TypeExpr
  name : String
  deriving DecidableEq

/-- An `@interface` declaration. -/
structure ObjCInterface where
  name : String
  superclass : String
  ivars : List Ivar
  methods : List ObjCMethod
  deriving DecidableEq

/-- A parameter of a C++ function or constructor. -/
structure CxxParam where
  type : TypeExpr
  name : String
  deriving DecidableEq

/-- A C++ constructor declaration. -/
structure CxxConstructor where
  visibility : Visibility
  params : List CxxParam
  deriving DecidableEq

/-- A C++ member function declaration. -/
structure CxxMethod where
  visibility : Visibility
  returnType : TypeExpr
  name : String
  params : List CxxParam
  deriving DecidableEq

/-- A C++ data member declaration. -/
structure CxxField where
  visibility : Visibility
  type : TypeExpr
  name : String
  deriving DecidableEq

/-- A C++ class declaration inside a namespace. -/
structure CxxClass where
  namespaceName : String
  name : String
  bases : List String
  constructors : List CxxConstructor
  methods : List CxxMethod
  fields : List CxxField
  deriving DecidableEq

/-- A free function declaration. -/
structure FreeFunction where
  returnType : TypeExpr
  name : String
  params : List CxxParam
  deriving DecidableEq

/-- Everything a header declares. -/
structure Header where
  protocols : List ObjCProtocol
  interfaces : List ObjCInterface
  classes : List CxxClass
  functions : List FreeFunction
  deriving DecidableEq

/-! ## The header, line by line -/

/-- The type `NSDictionary *`. -/
def tNSDictionaryPtr : TypeExpr := .pointer (.named "NSDictionary")

/-- The type `NSArray *`. -/
def tNSArrayPtr : TypeExpr := .pointer (.named "NSArray")

/-- The type `RCTPromiseResolveBlock`. -/
def tRCTPromiseResolveBlock : TypeExpr := .named "RCTPromiseResolveBlock"

/-- The type `RCTPromiseRejectBlock`. -/
def tRCTPromiseRejectBlock : TypeExpr := .named "RCTPromiseRejectBlock"

/-- Header lines 36-38:
`- (void)pick:(NSDictionary *)options resolve:(RCTPromiseResolveBlock)resolve
reject:(RCTPromiseRejectBlock)reject;` -/
def pick : ObjCMethod :=
  { isInstance := true
    returnType := .void
    parts :=
      [ { label := "pick", type := tNSDictionaryPtr, name := "options" },
        { label := "resolve", type := tRCTPromiseResolveBlock, name := "resolve" },
        { label := "reject", type := tRCTPromiseRejectBlock, name := "reject" } ] }

/-- Header lines 39-41:
`- (void)releaseSecureAccess:(NSArray *)uris resolve:(RCTPromiseResolveBlock)resolve
reject:(RCTPromiseRejectBlock)reject;` -/
def releaseSecureAccess : ObjCMethod :=
  { isInstance := true
    returnType := .void
    parts :=
      [ { label := "releaseSecureAccess", type := tNSArrayPtr, name := "uris" },
        { label := "resolve", type := tRCTPromiseResolveBlock, name := "resolve" },
        { label := "reject", type := tRCTPromiseRejectBlock, name := "reject" } ] }

/-- Header lines 42-43:
`- (void)pickDirectory:(RCTPromiseResolveBlock)resolve
reject:(RCTPromiseRejectBlock)reject;` -/
def pickDirectory : ObjCMethod :=
  { isInstance := true
    returnType := .void
    parts :=
      [ { label := "pickDirectory", type := tRCTPromiseResolveBlock, name := "resolve" },
        { label := "reject", type := tRCTPromiseRejectBlock, name := "reject" } ] }

/-- Header lines 34-45:
`@protocol NativeDocumentPickerSpec <RCTBridgeModule, RCTTurboModule> ... @end` -/
def NativeDocumentPickerSpec : ObjCProtocol :=
  { name := "NativeDocumentPickerSpec"
    conformsTo := ["RCTBridgeModule", "RCTTurboModule"]
    methods := [pick, releaseSecureAccess, pickDirectory] }

/-- Header line 51:
`- (void)setEventEmitterCallback:(EventEmitterCallbackWrapper *)eventEmitterCallbackWrapper;` -/
def setEventEmitterCallback : ObjCMethod :=
  { isInstance := true
    returnType := .void
    parts :=
      [ { label := "setEventEmitterCallback"
          type := .pointer (.named "EventEmitterCallbackWrapper")
          name := "eventEmitterCallbackWrapper" } ] }

/-- Header lines 47-54:
`@interface NativeDocumentPickerSpecBase : NSObject { @protected
facebook::react::EventEmitterCallback _eventEmitterCallback; } ... @end` -/
def NativeDocumentPickerSpecBase : ObjCInterface :=
  { name := "NativeDocumentPickerSpecBase"
    superclass := "NSObject"
    ivars :=
      [ { visibility := .isProtected
          type := .named "facebook::react::EventEmitterCallback"
          name := "_eventEmitterCallback" } ]
    methods := [setEventEmitterCallback] }

/-- Header lines 60-63:
`class JSI_EXPORT NativeDocumentPickerSpecJSI : public ObjCTurboModule { public:
NativeDocumentPickerSpecJSI(const ObjCTurboModule::InitParams &params); };`
inside `namespace facebook::react`. -/
def NativeDocumentPickerSpecJSI : CxxClass :=
  { namespaceName := "facebook::react"
    name := "NativeDocumentPickerSpecJSI"
    bases := ["ObjCTurboModule"]
    constructors :=
      [ { visibility := .isPublic
          params :=
            [ { type := .constRef (.named "ObjCTurboModule::InitParams")
                name := "params" } ] } ]
    methods := []
    fields := [] }

/-- The whole header `rndocumentpicker.h`. -/
def rndocumentpicker_H : Header :=
  { protocols := [NativeDocumentPickerSpec]
    interfaces := [NativeDocumentPickerSpecBase]
    classes := [NativeDocumentPickerSpecJSI]
    functions := [] }

/-! ## Reading a declaration -/

/-- The name of an operation: the first keyword of its selector. -/
def ObjCMethod.operationName (m : ObjCMethod) : String :=
  match m.parts with
  | [] => ""
  | p :: _ => p.label

/-- The full selector, every keyword followed by a colon. -/
def ObjCMethod.selector (m : ObjCMethod) : String :=
  String.join (m.parts.map fun p => p.label ++ ":")

/-- A parameter typed as the promise resolve block. -/
def KeywordPart.isResolve (p : KeywordPart) : Bool :=
  decide (p.type = tRCTPromiseResolveBlock)

/-- A parameter typed as the promise reject block. -/
def KeywordPart.isReject (p : KeywordPart) : Bool :=
  decide (p.type = tRCTPromiseRejectBlock)

/-- The resolve callbacks of a method, in declaration order. -/
def ObjCMethod.resolveCallbacks (m : ObjCMethod) : List KeywordPart :=
  m.parts.filter KeywordPart.isResolve

/-- The reject callbacks of a method, in declaration order. -/
def ObjCMethod.rejectCallbacks (m : ObjCMethod) : List KeywordPart :=
  m.parts.filter KeywordPart.isReject

/-- The parameters of a method that are neither resolve nor reject callback. -/
def ObjCMethod.inputs (m : ObjCMethod) : List KeywordPart :=
  m.parts.filter fun p => !(p.isResolve || p.isReject)

/-- A way a method signature offers for handing something back to the caller. -/
inductive Channel where
  | returnValue (t : TypeExpr)
  | outParameter (p : KeywordPart)
  | resolveCallback (p : KeywordPart)
  | rejectCallback (p : KeywordPart)
  deriving DecidableEq

/-- The channel a single parameter offers, if any: a resolve block, a reject
block, or an out-parameter (a pointer to a pointer, as in `NSError **`).
A parameter that is a plain object reference offers none. -/
def KeywordPart.channel? (p : KeywordPart) : Option Channel :=
  if p.isResolve then some (.resolveCallback p)
  else if p.isReject then some (.rejectCallback p)
  else
    match p.type with
    | .pointer (.pointer _) => some (.outParameter p)
    | _ => none

/-- Every channel of a method signature: the return value unless the return
type is `void`, then the channels of the parameters in declaration order. -/
def ObjCMethod.outputChannels (m : ObjCMethod) : List Channel :=
  (if m.returnType = .void then [] else [.returnValue m.returnType])
    ++ m.parts.filterMap KeywordPart.channel?

/-- Modelled from the spec: the block typedefs `RCTPromiseResolveBlock` and
`RCTPromiseRejectBlock` are declared in `React/RCTBridgeModule.h`, which the
header only imports; the spec writes them `resolve(result)` and
`reject(error)`.  A channel can carry an error unless it is the resolve
callback. -/
def Channel.carriesError : Channel → Bool
  | .resolveCallback _ => false
  | _ => true

/-- Modelled from the spec: see `Channel.carriesError`.  A channel can carry a
result unless it is the reject callback. -/
def Channel.carriesResult : Channel → Bool
  | .rejectCallback _ => false
  | _ => true

/-- The channels through which a method can report an error. -/
def ObjCMethod.errorChannels (m : ObjCMethod) : List Channel :=
  m.outputChannels.filter Channel.carriesError

/-- The channels through which a method can deliver a result. -/
def ObjCMethod.resultChannels (m : ObjCMethod) : List Channel :=
  m.outputChannels.filter Channel.carriesResult

/-- The kinds of callable declaration a header can contain. -/
inductive CallableKind where
  | protocolMethod
  | interfaceMethod
  | cxxConstructor
  | cxxMemberFunction
  | freeFunction
  deriving DecidableEq

/-- A callable declaration: who declares it, its name (for an Objective-C
method its full selector) and its parameter types in order. -/
structure Callable where
  kind : CallableKind
  owner : String
  name : String
  paramTypes : List TypeExpr
  deriving DecidableEq

/-- The callables declared by a protocol. -/
def ObjCProtocol.callables (p : ObjCProtocol) : List Callable :=
  p.methods.map fun m =>
    { kind := .protocolMethod, owner := p.name, name := m.selector,
      paramTypes := m.parts.map fun k => k.type }

/-- The callables declared by an interface. -/
def ObjCInterface.callables (i : ObjCInterface) : List Callable :=
  i.methods.map fun m =>
    { kind := .interfaceMethod, owner := i.name, name := m.selector,
      paramTypes := m.parts.map fun k => k.type }

/-- The callables declared by a C++ class: constructors, then member functions. -/
def CxxClass.callables (c : CxxClass) : List Callable :=
  (c.constructors.map fun k =>
      { kind := .cxxConstructor, owner := c.name, name := c.name,
        paramTypes := k.params.map fun q => q.type })
    ++ c.methods.map fun f =>
      { kind := .cxxMemberFunction, owner := c.name, name := f.name,
        paramTypes := f.params.map fun q => q.type }

/-- Concatenation of the lists obtained from every element. -/
def collect {α β : Type} (f : α → List β) : List α → List β
  | [] => []
  | x :: xs => f x ++ collect f xs

/-- Every callable method, constructor or function a header declares, in
declaration order. -/
def Header.callables (h : Header) : List Callable :=
  collect ObjCProtocol.callables h.protocols
    ++ collect ObjCInterface.callables h.interfaces
    ++ collect CxxClass.callables h.classes
    ++ h.functions.map fun f =>
      { kind := .freeFunction, owner := "", name := f.name,
        paramTypes := f.params.map fun q => q.type }

/-- One of the three protocol method signatures. -/
def Callable.isProtocolOperation (c : Callable) : Bool :=
  decide (c.kind = .protocolMethod) && decide (c.owner = "NativeDocumentPickerSpec")
    && decide (c.name ∈ NativeDocumentPickerSpec.methods.map ObjCMethod.selector)

/-- The constructor of the wrapper class, taking a single
`const ObjCTurboModule::InitParams &`. -/
def Callable.isWrapperConstructor (c : Callable) : Bool :=
  decide (c.kind = .cxxConstructor) && decide (c.owner = "NativeDocumentPickerSpecJSI")
    && decide (c.paramTypes = [.constRef (.named "ObjCTurboModule::InitParams")])

/-- C1: the protocol NativeDocumentPickerSpec (the only protocol of the header)
declares exactly three operations, named pick, releaseSecureAccess and
pickDirectory in that order, and each of them has exactly one parameter of the
resolve block type, named resolve, and exactly one parameter of the reject
block type, named reject. -/
theorem protocol_three_operations_with_callback_pair :
    rndocumentpicker_H.protocols.map (fun p => p.name) = ["NativeDocumentPickerSpec"] ∧
    NativeDocumentPickerSpec.methods.length = 3 ∧
    NativeDocumentPickerSpec.methods.map ObjCMethod.operationName
      = ["pick", "releaseSecureAccess", "pickDirectory"] ∧
    ∀ m ∈ NativeDocumentPickerSpec.methods,
      m.resolveCallbacks.map (fun p => p.name) = ["resolve"] ∧
      m.rejectCallbacks.map (fun p => p.name) = ["reject"] := by
  decide

/-- C2: apart from the resolve/reject pair, pick takes exactly one input, the
`NSDictionary *` named options; releaseSecureAccess takes exactly one input,
the `NSArray *` named uris; pickDirectory takes no input at all. -/
theorem protocol_operation_inputs :
    NativeDocumentPickerSpec.methods.map
        (fun m => (m.operationName, m.inputs.map fun p => (p.type, p.name)))
      = [ ("pick", [(TypeExpr.pointer (.named "NSDictionary"), "options")]),
          ("releaseSecureAccess", [(TypeExpr.pointer (.named "NSArray"), "uris")]),
          ("pickDirectory", []) ] := by
  decide

/-- C4: every one of the three protocol operations has return type `void`;
the only channel of its signature that can carry an error is its reject
callback, and the only channel that can carry a result is its resolve
callback. -/
theorem protocol_operations_return_void_and_settle_by_callback :
    ∀ m ∈ NativeDocumentPickerSpec.methods,
      m.returnType = .void ∧
      m.errorChannels
        = [ .rejectCallback
              { label := "reject", type := .named "RCTPromiseRejectBlock", name := "reject" } ] ∧
      m.resultChannels = m.resolveCallbacks.map Channel.resolveCallback ∧
      m.resolveCallbacks.length = 1 := by
  decide

/-- The statement of C4 at the operation pickDirectory, whose resolve callback
is the parameter of the first selector keyword. -/
theorem protocol_operations_return_void_and_settle_by_callback_witness :
    pickDirectory ∈ NativeDocumentPickerSpec.methods ∧
    pickDirectory.returnType = .void ∧
    pickDirectory.errorChannels
      = [ .rejectCallback
            { label := "reject", type := .named "RCTPromiseRejectBlock", name := "reject" } ] ∧
    pickDirectory.resultChannels = pickDirectory.resolveCallbacks.map Channel.resolveCallback ∧
    pickDirectory.resolveCallbacks.length = 1 :=
  ⟨by decide,
    protocol_operations_return_void_and_settle_by_callback pickDirectory (by decide)⟩

/-- C5, as stated, fails: the header declares a callable that is neither one
of the three protocol method signatures nor the constructor of the wrapper
class, namely `setEventEmitterCallback:` of NativeDocumentPickerSpecBase. -/
theorem surface_is_not_only_protocol_and_constructor :
    ¬ (∀ c ∈ rndocumentpicker_H.callables,
        c.isProtocolOperation = true ∨ c.isWrapperConstructor = true) := by
  decide

/-- C5, amended: the callables declared by the header are exactly the three
protocol method signatures, the setter `setEventEmitterCallback:` of
NativeDocumentPickerSpecBase taking one `EventEmitterCallbackWrapper *`, and
the constructor of NativeDocumentPickerSpecJSI taking a single
`const ObjCTurboModule::InitParams &`; there is no other. -/
theorem surface_is_protocol_setter_and_constructor :
    rndocumentpicker_H.callables
      = [ { kind := .protocolMethod, owner := "NativeDocumentPickerSpec",
            name := "pick:resolve:reject:",
            paramTypes := [ .pointer (.named "NSDictionary"),
                            .named "RCTPromiseResolveBlock",
                            .named "RCTPromiseRejectBlock" ] },
          { kind := .protocolMethod, owner := "NativeDocumentPickerSpec",
            name := "releaseSecureAccess:resolve:reject:",
            paramTypes := [ .pointer (.named "NSArray"),
                            .named "RCTPromiseResolveBlock",
                            .named "RCTPromiseRejectBlock" ] },
          { kind := .protocolMethod, owner := "NativeDocumentPickerSpec",
            name := "pickDirectory:reject:",
            paramTypes := [ .named "RCTPromiseResolveBlock",
                            .named "RCTPromiseRejectBlock" ] },
          { kind := .interfaceMethod, owner := "NativeDocumentPickerSpecBase",
            name := "setEventEmitterCallback:",
            paramTypes := [ .pointer (.named "EventEmitterCallbackWrapper") ] },
          { kind := .cxxConstructor, owner := "NativeDocumentPickerSpecJSI",
            name := "NativeDocumentPickerSpecJSI",
            paramTypes := [ .constRef (.named "ObjCTurboModule::InitParams") ] } ] ∧
    (rndocumentpicker_H.callables.filter
        fun c => !(c.isProtocolOperation || c.isWrapperConstructor)).map (fun c => c.name)
      = ["setEventEmitterCallback:"] := by
  decide

end RNDocumentPicker
